import Mathlib

/-!
Verification development for the NFSe Arapiraca submission workflow
(`orchestrator.py`, `signer.py`, `xml_builder.py`, `soap_client.py`,
`data_source.py`).

The Python code exchanges untyped dictionaries between components, so the
embedding models Python values by an explicit inductive type `PyVal` with
dictionaries as association lists; `dict.get`, truthiness and f-string
rendering are embedded as functions on `PyVal`.  Timestamps are abstracted
as natural numbers supplied by the environment; floating point amounts
only ever flow through the code as opaque payload, so they are represented
by their decimal string renderings.  Remote SOAP calls are opaque
request/response exchanges: the environment supplies each call's outcome
as `Except String PyVal`, where `Except.error` stands for a raised Python
exception carrying its message.
-/

namespace Nfse

/-- Model of a Python runtime value as exchanged between the components
(`None`, `bool`, `int`, `str`, `list`, `dict`). -/
inductive PyVal where
  | pnone
  | pbool (b : Bool)
  | pint (n : Int)
  | pstr (s : String)
  | plist (l : List PyVal)
  | pdict (l : List (String × PyVal))

/-- Dictionary lookup (`d[k]` / `d.get(k)` without default): first binding wins. -/
def lookupD (l : List (String × PyVal)) (k : String) : Option PyVal :=
  match l with
  | [] => none
  | (k', v) :: rest => if k' = k then some v else lookupD rest k

/-- Python `d.get(k, default)`. -/
def getD (l : List (String × PyVal)) (k : String) (dflt : PyVal) : PyVal :=
  match lookupD l k with
  | some v => v
  | none => dflt

/-- Python truthiness of a value (`if v:`). -/
def truthy : PyVal → Bool
  | .pnone => false
  | .pbool b => b
  | .pint n => n ≠ 0
  | .pstr s => s ≠ ""
  | .plist l => !l.isEmpty
  | .pdict l => !l.isEmpty

/-- Python `str(v)` / f-string rendering for the values the code interpolates
(container renderings are abstracted). -/
def fstr : PyVal → String
  | .pnone => "None"
  | .pbool true => "True"
  | .pbool false => "False"
  | .pint n => toString n
  | .pstr s => s
  | .plist _ => "[...]"
  | .pdict _ => "{...}"

/-- Python `v == n` against an int literal (`True == 1` holds in Python). -/
def pyEqInt : PyVal → Int → Bool
  | .pint m, n => m = n
  | .pbool b, n => (if b then (1 : Int) else 0) = n
  | _, _ => false

/-- Whether a value is a dict (has the `.get` attribute used by the NFSe log loop). -/
def isDict : PyVal → Bool
  | .pdict _ => true
  | _ => false

/-- Python `len(v)`: `none` models a raised `TypeError`. -/
def pyLen : PyVal → Option Nat
  | .plist l => some l.length
  | .pstr s => some s.length
  | .pdict l => some l.length
  | _ => none

/-- Python iteration over a sized container: list elements, string characters,
dict keys. -/
def pyIter : PyVal → List PyVal
  | .plist l => l
  | .pstr s => s.toList.map (fun c => .pstr (String.singleton c))
  | .pdict l => l.map (fun kv => .pstr kv.1)
  | _ => []

/-- Python type name, used to render `TypeError` / `AttributeError` messages. -/
def pyTypeName : PyVal → String
  | .pnone => "NoneType"
  | .pbool _ => "bool"
  | .pint _ => "int"
  | .pstr _ => "str"
  | .plist _ => "list"
  | .pdict _ => "dict"

/-! ## `soap_client._get_status_description` -/

/-- Embeds `soap_client._get_status_description`: description of a lote status code. -/
def get_status_description (status : Int) : String :=
  if status = 1 then "Não Recebido"
  else if status = 2 then "Processando"
  else if status = 3 then "Erro no Processamento"
  else if status = 4 then "Processado com Sucesso"
  else "Status desconhecido: " ++ toString status

/-! ## `orchestrator._fazer_polling_status`

The poller is embedded as a recursive function over the remaining attempt
budget.  `resps t` is the outcome of the `t`-th `check_lote_status` call
(1-based): `.error e` models the call raising an exception with message `e`,
`.ok d` models it returning the dict `d`.  The run records the returned or
raised outcome, the number of `check_lote_status` calls made, and the
1-based attempt numbers after which `time.sleep` executed. -/

/-- Observable outcome of one `_fazer_polling_status` run: the returned dict or
the raised `OrchestrationError` message, the number of status calls made, and
the attempts after which the poller slept. -/
structure PollRun where
  result : Except String PyVal
  calls : Nat
  sleeps : List (Nat × Nat)

/-- Message of the `OrchestrationError` raised on attempt exhaustion. -/
def timeoutMsg (max_tentativas : Nat) : String :=
  "Timeout no polling após " ++ toString max_tentativas ++ " tentativas"

/-- Prefix of every `OrchestrationError` raised from the last attempt's
`except` handler (both the exception path and the re-caught
`Falha persistente` raise flow through it). -/
def persistentMsg (rest : String) : String :=
  "Erro persistente durante polling: " ++ rest

/-- The `Falha persistente na consulta de status: {erro}` message raised (and
then re-caught and re-wrapped) when the status query returns a failed outcome
on the final attempt. -/
def falhaPersistenteMsg (d : List (String × PyVal)) : String :=
  "Falha persistente na consulta de status: " ++ fstr (getD d "erro" .pnone)

/-- One loop iteration of `_fazer_polling_status`, recursing on the remaining
attempt budget `rem`; `t` is the current 1-based attempt number.  Falling out
of the loop (`rem = 0`) raises the timeout error.  A `continue` after a failed
status outcome skips the sleep; the `except` path sleeps on non-final
attempts. -/
def pollGo (resps : Nat → Except String PyVal) (max_tentativas intervalo_segundos : Nat) :
    Nat → Nat → PollRun
  | _, 0 => { result := .error (timeoutMsg max_tentativas), calls := 0, sleeps := [] }
  | t, rem + 1 =>
    match resps t with
    | .error e =>
      if rem = 0 then
        { result := .error (persistentMsg e), calls := 1, sleeps := [] }
      else
        let r := pollGo resps max_tentativas intervalo_segundos (t + 1) rem
        { result := r.result, calls := r.calls + 1, sleeps := (t, intervalo_segundos) :: r.sleeps }
    | .ok d =>
      match d with
      | .pdict entries =>
        match lookupD entries "sucesso" with
        | none =>
          -- `resultado_status['sucesso']` raises KeyError, caught by `except`
          if rem = 0 then
            { result := .error (persistentMsg "KeyError: sucesso"), calls := 1, sleeps := [] }
          else
            let r := pollGo resps max_tentativas intervalo_segundos (t + 1) rem
            { result := r.result, calls := r.calls + 1, sleeps := (t, intervalo_segundos) :: r.sleeps }
        | some v =>
          if truthy v then
            let status := getD entries "status" .pnone
            if pyEqInt status 3 || pyEqInt status 4 then
              { result := .ok d, calls := 1, sleeps := [] }
            else
              let r := pollGo resps max_tentativas intervalo_segundos (t + 1) rem
              { result := r.result, calls := r.calls + 1,
                sleeps := if rem = 0 then r.sleeps else (t, intervalo_segundos) :: r.sleeps }
          else
            if rem = 0 then
              { result := .error (persistentMsg (falhaPersistenteMsg entries)),
                calls := 1, sleeps := [] }
            else
              -- `continue`: next attempt without sleeping
              let r := pollGo resps max_tentativas intervalo_segundos (t + 1) rem
              { result := r.result, calls := r.calls + 1, sleeps := r.sleeps }
      | other =>
        -- a non-dict response makes `resultado_status['sucesso']` raise,
        -- handled by the same `except` branch
        if rem = 0 then
          { result := .error (persistentMsg (pyTypeName other ++ " is not subscriptable")),
            calls := 1, sleeps := [] }
        else
          let r := pollGo resps max_tentativas intervalo_segundos (t + 1) rem
          { result := r.result, calls := r.calls + 1, sleeps := (t, intervalo_segundos) :: r.sleeps }

/-- Embeds `orchestrator._fazer_polling_status(protocolo, max_tentativas)`: run the
polling loop from attempt 1 with the full budget. -/
def fazerPollingStatus (resps : Nat → Except String PyVal)
    (max_tentativas intervalo_segundos : Nat) : PollRun :=
  pollGo resps max_tentativas intervalo_segundos 1 max_tentativas

/-- Shape of a successful `check_lote_status` response carrying status `s`
(`soap_client._processar_resposta_status` / the mock branch). -/
def okStatusDict (s : Int) : PyVal :=
  .pdict [("sucesso", .pbool true), ("status", .pint s),
          ("status_descricao", .pstr (get_status_description s)),
          ("resposta_xml", .pstr "")]

/-- A scripted sequence of successful status responses: attempt `t` observes
the `t`-th status of `l` (statuses past the end repeat the final `0`,
which is never reached in the scenarios proved below). -/
def scripted (l : List Int) : Nat → Except String PyVal :=
  fun t => .ok (okStatusDict (l.getD (t - 1) 0))

/-! ## XML trees

`lxml` element trees are embedded as an inductive tree: tag, attribute list,
text content and child elements.  Namespaced tags keep lxml's
`\x7bnamespace-uri\x7dlocalname` spelling. -/

/-- An `lxml.etree._Element`: tag, attributes, text and children. -/
inductive Xml where
  | elem (tag : String) (attrs : List (String × String)) (text : Option String)
      (children : List Xml)

/-- The tag of an element. -/
def Xml.tag : Xml → String
  | .elem t _ _ _ => t

/-- The attributes of an element. -/
def Xml.attrs : Xml → List (String × String)
  | .elem _ a _ _ => a

/-- The text of an element. -/
def Xml.text : Xml → Option String
  | .elem _ _ tx _ => tx

/-- The children of an element. -/
def Xml.children : Xml → List Xml
  | .elem _ _ _ c => c

/-- Attribute lookup in an attribute list, first binding wins. -/
def attrLookup (attrs : List (String × String)) (name : String) : Option String :=
  match attrs with
  | [] => none
  | (k, v) :: rest => if k = name then some v else attrLookup rest name

/-- Embeds `element.get(name)`. -/
def Xml.attr (x : Xml) (name : String) : Option String :=
  attrLookup x.attrs name

mutual
/-- First element with the given tag in document (pre-order) order,
the element itself included — the semantics of `root.xpath("//Tag")[0]`. -/
def findFirstTag : Xml → String → Option Xml
  | .elem t a tx c, tag =>
    if t = tag then some (.elem t a tx c) else findFirstTagList c tag
/-- Runs `findFirstTag` over a child list, left to right. -/
def findFirstTagList : List Xml → String → Option Xml
  | [], _ => none
  | x :: xs, tag =>
    match findFirstTag x tag with
    | some r => some r
    | none => findFirstTagList xs tag
end

mutual
/-- Number of elements with the given tag in a tree, the root included —
the semantics of `len(root.xpath("//Tag"))`. -/
def countTag : Xml → String → Nat
  | .elem t _ _ c, tag => (if t = tag then 1 else 0) + countTagList c tag
/-- Sums `countTag` over a child list. -/
def countTagList : List Xml → String → Nat
  | [], _ => 0
  | x :: xs, tag => countTag x tag + countTagList xs tag
end

/-- First direct child with the given tag — `element.xpath("./Tag")[0]`. -/
def firstChildTag (children : List Xml) (tag : String) : Option Xml :=
  match children with
  | [] => none
  | x :: xs => if x.tag = tag then some x else firstChildTag xs tag

/-! ## `config.py` -/

/-- Value of `config.PRESTADOR_CNPJ`. -/
def PRESTADOR_CNPJ : String := "32649500000145"

/-- Value of `config.PRESTADOR_IM`. -/
def PRESTADOR_IM : String := "123"

/-! ## `xml_builder.py`

Invoice dictionaries are embedded as records with the exact fields the
builder reads; the float amounts (`valor_servicos`, `valor_iss`, `aliquota`)
are carried as their formatted decimal renderings (`f"{v:.2f}"` /
`f"{v:.4f}"` output), since the code only ever serializes them. -/

/-- The `tomador` sub-dictionary of an invoice. -/
structure Tomador where
  cnpj : String
  razao_social : String
  endereco : String
  numero : String
  bairro : String
  codigo_municipio : String
  uf : String
  cep : String

/-- An invoice record as consumed by `xml_builder` (the shape produced by
`data_source.DataSource.get_invoices_to_process`). -/
structure Invoice where
  id_rps : String
  numero_rps : String
  serie_rps : String
  tipo_rps : Int
  data_emissao : String
  status_rps : Int
  valor_servicos : String
  valor_iss : String
  aliquota : String
  iss_retido : Int
  item_lista_servico : String
  discriminacao : String
  codigo_municipio : String
  tomador : Tomador

/-- Embeds `xml_builder._build_endereco_tomador`. -/
def build_endereco_tomador (t : Tomador) : Xml :=
  .elem "Endereco" [] none [
    .elem "Endereco" [] (some t.endereco) [],
    .elem "Numero" [] (some t.numero) [],
    .elem "Bairro" [] (some t.bairro) [],
    .elem "CodigoMunicipio" [] (some t.codigo_municipio) [],
    .elem "Uf" [] (some t.uf) [],
    .elem "Cep" [] (some t.cep) []]

/-- Embeds `xml_builder._build_tomador`. -/
def build_tomador (t : Tomador) : Xml :=
  .elem "Tomador" [] none [
    .elem "IdentificacaoTomador" [] none [
      .elem "CpfCnpj" [] none [
        .elem "Cnpj" [] (some t.cnpj) []]],
    .elem "RazaoSocial" [] (some t.razao_social) [],
    build_endereco_tomador t]

/-- Embeds `xml_builder._build_prestador`. -/
def build_prestador : Xml :=
  .elem "Prestador" [] none [
    .elem "CpfCnpj" [] none [
      .elem "Cnpj" [] (some PRESTADOR_CNPJ) []],
    .elem "InscricaoMunicipal" [] (some PRESTADOR_IM) []]

/-- Embeds `xml_builder._build_servico`. -/
def build_servico (invoice : Invoice) : Xml :=
  .elem "Servico" [] none [
    .elem "Valores" [] none [
      .elem "ValorServicos" [] (some invoice.valor_servicos) [],
      .elem "ValorIss" [] (some invoice.valor_iss) [],
      .elem "Aliquota" [] (some invoice.aliquota) []],
    .elem "IssRetido" [] (some (toString invoice.iss_retido)) [],
    .elem "ItemListaServico" [] (some invoice.item_lista_servico) [],
    .elem "Discriminacao" [] (some invoice.discriminacao) [],
    .elem "CodigoMunicipio" [] (some invoice.codigo_municipio) []]

/-- Embeds `xml_builder._build_identificacao_rps`. -/
def build_identificacao_rps (invoice : Invoice) : Xml :=
  .elem "IdentificacaoRps" [] none [
    .elem "Numero" [] (some invoice.numero_rps) [],
    .elem "Serie" [] (some invoice.serie_rps) [],
    .elem "Tipo" [] (some (toString invoice.tipo_rps)) []]

/-- The `InfRps` element built inline by `xml_builder._build_rps` (factored
out so the signer theorems can name it). -/
def build_inf_rps (invoice : Invoice) : Xml :=
  .elem "InfRps" [("id", invoice.id_rps)] none [
    build_identificacao_rps invoice,
    .elem "DataEmissao" [] (some invoice.data_emissao) [],
    .elem "StatusRps" [] (some (toString invoice.status_rps)) [],
    build_servico invoice,
    build_prestador,
    build_tomador invoice.tomador]

/-- Embeds `xml_builder._build_rps`. -/
def build_rps (invoice : Invoice) : Xml :=
  .elem "Rps" [] none [build_inf_rps invoice]

/-- Embeds `xml_builder._build_lote_rps`. -/
def build_lote_rps (invoices : List Invoice) (numero_lote : Nat) : Xml :=
  .elem "LoteRps" [("id", "lote_" ++ toString numero_lote)] none [
    .elem "NumeroLote" [] (some (toString numero_lote)) [],
    .elem "CpfCnpj" [] none [
      .elem "Cnpj" [] (some PRESTADOR_CNPJ) []],
    .elem "InscricaoMunicipal" [] (some PRESTADOR_IM) [],
    .elem "QuantidadeRps" [] (some (toString invoices.length)) [],
    .elem "ListaRps" [] none (invoices.map build_rps)]

/-- Embeds `xml_builder.create_lote_xml`. -/
def create_lote_xml (invoices : List Invoice) (numero_lote : Nat) : Xml :=
  .elem "EnviarLoteRpsEnvio" [("xmlns", "http://www.abrasf.org.br/nfse.xsd")] none
    [build_lote_rps invoices numero_lote]

/-! ## `signer.py`

The tree-transforming semantics of the double-signature pass is embedded
exactly; the cryptographic primitives are abstracted in the standard way:
the SHA-1 digest of an element's canonicalized content is modelled by the
element subtree itself (an injective stand-in for the hash), stored under
`DigestValue`, and the RSA signature value and certificate material are left
as the template's empty placeholders — claims only concern placement, order
and coverage of the signature blocks, never the bit patterns of the
cryptography.  Key loading (`_load_private_key_from_pfx`) is assumed to
succeed; its failure aborts before any tree mutation. -/

/-- The lxml qualified-name spelling for the XML-DSig namespace. -/
def dsTag (local_name : String) : String :=
  "\x7bhttp://www.w3.org/2000/09/xmldsig#\x7d" ++ local_name

/-- Embeds `signer._create_signature_template`: the unsigned ABRASF signature
template referencing `reference_uri`. -/
def create_signature_template (reference_uri : String) : Xml :=
  .elem (dsTag "Signature") [] none [
    .elem (dsTag "SignedInfo") [] none [
      .elem (dsTag "CanonicalizationMethod")
        [("Algorithm", "http://www.w3.org/TR/2001/REC-xml-c14n-20010315")] none [],
      .elem (dsTag "SignatureMethod")
        [("Algorithm", "http://www.w3.org/2000/09/xmldsig#rsa-sha1")] none [],
      .elem (dsTag "Reference") [("URI", reference_uri)] none [
        .elem (dsTag "Transforms") [] none [
          .elem (dsTag "Transform")
            [("Algorithm", "http://www.w3.org/2000/09/xmldsig#enveloped-signature")] none []],
        .elem (dsTag "DigestMethod")
          [("Algorithm", "http://www.w3.org/2000/09/xmldsig#sha1")] none [],
        .elem (dsTag "DigestValue") [] none []]],
    .elem (dsTag "SignatureValue") [] none [],
    .elem (dsTag "KeyInfo") [] none [
      .elem (dsTag "X509Data") [] none [
        .elem (dsTag "X509Certificate") [] none []]]]

mutual
/-- Fill every (empty) `DigestValue` of a signature template with the model
digest: the referenced subtree itself. -/
def fillDigestValue (digest : Xml) : Xml → Xml
  | .elem t a tx c =>
    if t = dsTag "DigestValue" then .elem t a tx [digest]
    else .elem t a tx (fillDigestValueList digest c)
/-- Runs `fillDigestValue` over a child list. -/
def fillDigestValueList (digest : Xml) : List Xml → List Xml
  | [] => []
  | x :: xs => fillDigestValue digest x :: fillDigestValueList digest xs
end

/-- Embeds `_create_signature_template` followed by `_apply_signature`
(`xmlsec.SignatureContext.sign`): the completed signature block over the
`referenced` element, carrying its digest.  The referenced element is a
sibling of the template, so the enveloped transform removes nothing from the
digested content. -/
def signedBlock (reference_uri : String) (referenced : Xml) : Xml :=
  fillDigestValue referenced (create_signature_template reference_uri)

/-- The inner-signature step for one `Rps` element's child list
(`_sign_internal_rps_elements` loop body): locate `./InfRps`, skip the `Rps`
when it is absent or its `id` attribute is missing/empty (`continue`),
otherwise append the applied signature block as the last child. -/
def signInfRpsChildren (children : List Xml) : List Xml :=
  match firstChildTag children "InfRps" with
  | none => children
  | some inf =>
    match inf.attr "id" with
    | none => children
    | some id =>
      if id = "" then children
      else children ++ [signedBlock ("#" ++ id) inf]

mutual
/-- Embeds `signer._sign_internal_rps_elements`: for every `Rps` element of the
document, sign its `InfRps` and insert the block as the `Rps`'s last child. -/
def sign_internal_rps_elements : Xml → Xml
  | .elem t a tx c =>
    let c2 := signInternalList c
    if t = "Rps" then .elem t a tx (signInfRpsChildren c2) else .elem t a tx c2
/-- Runs `sign_internal_rps_elements` over a child list. -/
def signInternalList : List Xml → List Xml
  | [] => []
  | x :: xs => sign_internal_rps_elements x :: signInternalList xs
end

/-- Embeds `signer._sign_external_lote_element`: locate the (first) `LoteRps`,
fail when it is absent or its `id` attribute is missing/empty, otherwise
append the applied signature block as the root's last child. -/
def sign_external_lote_element (xml_root : Xml) : Except String Xml :=
  match findFirstTag xml_root "LoteRps" with
  | none => .error "Elemento LoteRps não encontrado no XML"
  | some lote_rps =>
    match lote_rps.attr "id" with
    | none => .error "Atributo id não encontrado no elemento LoteRps"
    | some lote_rps_id =>
      if lote_rps_id = "" then .error "Atributo id não encontrado no elemento LoteRps"
      else
        match xml_root with
        | .elem t a tx c =>
          .ok (.elem t a tx (c ++ [signedBlock ("#" ++ lote_rps_id) lote_rps]))

/-- Embeds `signer.sign_lote_rps_xml` with the `SKIP_SIGNATURE` switch explicit
(`TEST_MODE` is `False` in the repository's configuration).  In bypass mode
the tree is serialized unchanged; otherwise phase 1 signs every `InfRps`
and only then phase 2 signs the `LoteRps`.  The returned tree stands for
its UTF-8 serialization. -/
def sign_lote_rps_xml (skip_signature : Bool) (xml_tree_root : Xml) :
    Except String Xml :=
  if skip_signature then .ok xml_tree_root
  else
    let phase1 := sign_internal_rps_elements xml_tree_root
    sign_external_lote_element phase1

/-! ## `orchestrator.process_pending_invoices`

The orchestrator's `resultado_final` dictionary has a fixed key set, so it
is embedded as a record.  Every external collaborator with observable
nondeterminism (the data source, the signer outcome as seen through the
orchestrator's `None`/exception checks, and each SOAP call) is supplied by a
`Services` environment; `Except.error e` models the collaborator raising an
exception with message `e`.  `gerar_numero_lote` and the two `datetime.now()`
readings are environment data.  Besides the result, a run records the
chronological list of network-touching calls, to make "no network call was
attempted" checkable. -/

/-- The orchestrator's `resultado_final` dictionary. -/
structure ResultadoFinal where
  sucesso : Bool
  inicio : Nat
  fim : Option Nat
  duracao_segundos : Int
  etapas_concluidas : List String
  protocolo : PyVal
  nfse_geradas : PyVal
  erros : List String

/-- Environment of one orchestration run: timestamps, collaborator outcomes
and SOAP responses. -/
structure Services where
  start_time : Nat
  end_time : Nat
  get_invoices : Except String (List Invoice)
  numero_lote : Nat
  sign : Except String (Option String)
  send : Except String PyVal
  check : Nat → Except String PyVal
  results : Except String PyVal

/-- Result of a run together with the network calls it performed, in order. -/
structure OrchRun where
  result : ResultadoFinal
  net_calls : List String

/-- The six step names in their fixed order. -/
def fullSteps : List String :=
  ["obter_faturas", "construir_xml", "assinar_xml", "enviar_lote",
   "polling_status", "obter_resultados"]

/-- Embeds `orchestrator.process_pending_invoices`.  Each step's `try/except` is a
`match` on the environment-supplied outcome; every failure path appends one
error message and returns `resultado_final` as it stands — in particular
`fim` and `duracao_segundos` keep their initial `None`/`0`, which the source
only overwrites in the full-success epilogue (the outer `except` handler is
unreachable: every statement that can raise sits inside a step's own
`try/except`).  In this typed embedding `create_lote_xml` is total, so the
step-2 failure branches (`xml_lote is None`, builder exception) are vacuous. -/
def process_pending_invoices (svc : Services) : OrchRun :=
  let r0 : ResultadoFinal :=
    { sucesso := false, inicio := svc.start_time, fim := none,
      duracao_segundos := 0, etapas_concluidas := [], protocolo := .pnone,
      nfse_geradas := .plist [], erros := [] }
  -- ETAPA 1: obter faturas pendentes
  match svc.get_invoices with
  | .error e =>
    { result := { r0 with erros := ["Erro ao obter faturas pendentes: " ++ e] },
      net_calls := [] }
  | .ok invoices_data =>
    if invoices_data.isEmpty || invoices_data.length = 0 then
      { result := { r0 with erros := ["Nenhuma fatura pendente para processar"] },
        net_calls := [] }
    else
    let r1 := { r0 with etapas_concluidas := r0.etapas_concluidas ++ ["obter_faturas"] }
    -- ETAPA 2: construir XML do lote
    let numero_lote := svc.numero_lote
    let _xml_lote := create_lote_xml invoices_data numero_lote
    let r2 := { r1 with etapas_concluidas := r1.etapas_concluidas ++ ["construir_xml"] }
    -- ETAPA 3: assinar XML digitalmente
    match svc.sign with
    | .error e =>
      { result := { r2 with erros := r2.erros ++ ["Erro ao assinar XML: " ++ e] },
        net_calls := [] }
    | .ok none =>
      { result := { r2 with erros := r2.erros ++ ["Falha na assinatura digital do XML"] },
        net_calls := [] }
    | .ok (some _xml_assinado) =>
    let r3 := { r2 with etapas_concluidas := r2.etapas_concluidas ++ ["assinar_xml"] }
    -- ETAPA 4: enviar para o web service
    match svc.send with
    | .error e =>
      { result := { r3 with erros := r3.erros ++ ["Erro ao enviar lote: " ++ e] },
        net_calls := ["send_lote_rps"] }
    | .ok resultado_envio =>
    match resultado_envio with
    | .pdict envio =>
      match lookupD envio "sucesso" with
      | none =>
        -- `resultado_envio['sucesso']` raises KeyError inside the step's try
        { result := { r3 with erros := r3.erros ++ ["Erro ao enviar lote: KeyError: sucesso"] },
          net_calls := ["send_lote_rps"] }
      | some envio_sucesso =>
      if !truthy envio_sucesso then
        { result := { r3 with erros := r3.erros ++
            ["Falha no envio: " ++ fstr (getD envio "erro" (.pstr "Erro desconhecido"))] },
          net_calls := ["send_lote_rps"] }
      else
      let protocolo := getD envio "protocolo" .pnone
      if !truthy protocolo then
        { result := { r3 with erros := r3.erros ++ ["Protocolo não retornado pelo web service"] },
          net_calls := ["send_lote_rps"] }
      else
      let r4 := { r3 with protocolo := protocolo,
                          etapas_concluidas := r3.etapas_concluidas ++ ["enviar_lote"] }
      -- ETAPA 5: polling do status (defaults: max_tentativas=20, intervalo=15)
      let poll := fazerPollingStatus svc.check 20 15
      let net5 := "send_lote_rps" :: List.replicate poll.calls "check_lote_status"
      match poll.result with
      | .error e =>
        { result := { r4 with erros := r4.erros ++ ["Erro durante polling de status: " ++ e] },
          net_calls := net5 }
      | .ok status_final =>
      match status_final with
      | .pdict status_entries =>
        match lookupD status_entries "status" with
        | none =>
          -- `status_final['status']` raises KeyError
          { result := { r4 with erros := r4.erros ++
              ["Erro durante polling de status: KeyError: status"] },
            net_calls := net5 }
        | some status =>
        if pyEqInt status 3 then
          { result := { r4 with erros := r4.erros ++ ["Lote processado com erro: " ++
              fstr (getD status_entries "erro" (.pstr "Erro desconhecido"))] },
            net_calls := net5 }
        else if !pyEqInt status 4 then
          { result := { r4 with erros := r4.erros ++ ["Status final inesperado: " ++
              fstr (getD status_entries "status_descricao" (.pstr "Desconhecido"))] },
            net_calls := net5 }
        else
        let r5 := { r4 with etapas_concluidas := r4.etapas_concluidas ++ ["polling_status"] }
        -- ETAPA 6: obter resultados finais
        let net6 := net5 ++ ["get_lote_results"]
        match svc.results with
        | .error e =>
          { result := { r5 with erros := r5.erros ++ ["Erro ao obter resultados finais: " ++ e] },
            net_calls := net6 }
        | .ok resultado_final_ws =>
        match resultado_final_ws with
        | .pdict ws =>
          match lookupD ws "sucesso" with
          | none =>
            { result := { r5 with erros := r5.erros ++
                ["Erro ao obter resultados finais: KeyError: sucesso"] },
              net_calls := net6 }
          | some ws_sucesso =>
          if !truthy ws_sucesso then
            { result := { r5 with erros := r5.erros ++ ["Erro ao obter resultados: " ++
                fstr (getD ws "erro" (.pstr "Erro desconhecido"))] },
              net_calls := net6 }
          else
          let nfse_list := getD ws "nfse_list" (.plist [])
          match pyLen nfse_list with
          | none =>
            -- `len(nfse_list)` raises TypeError
            { result := { r5 with erros := r5.erros ++ ["Erro ao obter resultados finais: " ++
                "object of type " ++ pyTypeName nfse_list ++ " has no len()"] },
              net_calls := net6 }
          | some _total_nfse =>
          let r6 := { r5 with nfse_geradas := nfse_list,
                              etapas_concluidas := r5.etapas_concluidas ++ ["obter_resultados"] }
          -- log loop: `nfse.get(...)` raises unless every element is a dict
          if (pyIter nfse_list).all isDict then
            -- SUCESSO COMPLETO
            let rOk := { r6 with
              sucesso := true
              fim := some svc.end_time
              duracao_segundos := (svc.end_time : Int) - (svc.start_time : Int) }
            { result := rOk, net_calls := net6 }
          else
            { result := { r6 with erros := r6.erros ++ ["Erro ao obter resultados finais: " ++
                "object has no attribute get"] },
              net_calls := net6 }
        | other =>
          -- `resultado_final_ws['sucesso']` raises on a non-dict value
          { result := { r5 with erros := r5.erros ++ ["Erro ao obter resultados finais: " ++
              pyTypeName other ++ " is not subscriptable"] },
            net_calls := net6 }
      | other =>
        -- `status_final['status']` raises on a non-dict value
        { result := { r4 with erros := r4.erros ++ ["Erro durante polling de status: " ++
            pyTypeName other ++ " is not subscriptable"] },
          net_calls := net5 }
    | other =>
      -- `resultado_envio['sucesso']` raises on a non-dict value
      { result := { r3 with erros := r3.erros ++ ["Erro ao enviar lote: " ++
          pyTypeName other ++ " is not subscriptable"] },
        net_calls := ["send_lote_rps"] }

/-- Embeds `orchestrator.process_single_invoice`: builds a single-element list from
its argument, never reads it, and delegates to `process_pending_invoices`. -/
def process_single_invoice (invoice_data : Invoice) (svc : Services) : OrchRun :=
  let _invoices_list := [invoice_data]
  process_pending_invoices svc

/-! ## The repository's simulated end-to-end scenario

With the shipped configuration (`MOCK_WEBSERVICE = True`,
`SKIP_SIGNATURE = True`), every SOAP call returns the fixed mock dictionary
from `soap_client.py`.  The definitions below transcribe those mock
responses and the sample invoice of
`data_source.DataSource.get_invoices_to_process`, pinned at the scenario
timestamp `2025-09-30 11:26:56` (batch number `20250930112656`, protocol
`TESTE_20250930112656`).  Float payload values are carried as their decimal
renderings. -/

/-- The single sample invoice returned by `get_invoices_to_process`. -/
def sampleInvoice : Invoice :=
  { id_rps := "rps_1", numero_rps := "1", serie_rps := "1", tipo_rps := 1,
    data_emissao := "2025-09-30T11:26:56", status_rps := 1,
    valor_servicos := "1000.00", valor_iss := "50.00", aliquota := "0.0500",
    iss_retido := 2, item_lista_servico := "01.01",
    discriminacao := "Serviços de consultoria em tecnologia da informação",
    codigo_municipio := "2700102",
    tomador := { cnpj := "12345678000195",
                 razao_social := "Empresa Tomadora de Serviços Ltda",
                 endereco := "Rua das Flores, 123", numero := "123",
                 bairro := "Centro", codigo_municipio := "2700102",
                 uf := "AL", cep := "57300000" } }

/-- Mock response of `soap_client.send_lote_rps`. -/
def mockSendDict : PyVal :=
  .pdict [("sucesso", .pbool true),
          ("protocolo", .pstr "TESTE_20250930112656"),
          ("mensagem", .pstr "Lote recebido com sucesso (simulado)"),
          ("resposta_xml", .pstr "<EnviarLoteRpsResposta><Protocolo>TESTE_20250930112656</Protocolo></EnviarLoteRpsResposta>")]

/-- Mock response of `soap_client.check_lote_status`. -/
def mockStatusDict (protocolo : String) : PyVal :=
  .pdict [("sucesso", .pbool true), ("status", .pint 4),
          ("status_descricao", .pstr "Lote processado com sucesso"),
          ("protocolo", .pstr protocolo),
          ("resposta_xml", .pstr ("<ConsultarSituacaoLoteRpsResposta><Situacao>4</Situacao><Protocolo>"
            ++ protocolo ++ "</Protocolo></ConsultarSituacaoLoteRpsResposta>"))]

/-- The one generated NFSe of the mock `get_lote_results` response. -/
def mockNfseDict : PyVal :=
  .pdict [("numero", .pstr "000000001"),
          ("codigo_verificacao", .pstr "ABC123"),
          ("data_emissao", .pstr "2024-01-01T10:00:00"),
          ("valor_servicos", .pstr "1000.0"), ("valor_iss", .pstr "50.0"),
          ("link_visualizacao", .pstr "https://nfse.arapiraca.al.gov.br/visualizar/000000001/ABC123")]

/-- Entries of the mock `soap_client.get_lote_results` response: the
generated list sits under the key `nfse_geradas` (there is no `nfse_list`
key). -/
def mockResultsEntries (protocolo : String) : List (String × PyVal) :=
  [("sucesso", .pbool true),
   ("nfse_geradas", .plist [mockNfseDict]),
   ("total_nfse", .pint 1),
   ("protocolo", .pstr protocolo),
   ("resposta_xml", .pstr "<ConsultarLoteRpsResposta><ListaNfse><CompNfse><Nfse><InfNfse><Numero>000000001</Numero></InfNfse></Nfse></CompNfse></ListaNfse></ConsultarLoteRpsResposta>")]

/-- Mock response of `soap_client.get_lote_results`. -/
def mockResultsDict (protocolo : String) : PyVal :=
  .pdict (mockResultsEntries protocolo)

/-- The environment of the simulated end-to-end run. -/
def simulatedServices : Services :=
  { start_time := 0, end_time := 2,
    get_invoices := .ok [sampleInvoice],
    numero_lote := 20250930112656,
    sign := .ok (some "signed-xml-bytes"),
    send := .ok mockSendDict,
    check := fun _ => .ok (mockStatusDict "TESTE_20250930112656"),
    results := .ok (mockResultsDict "TESTE_20250930112656") }

/-! ## Poller response classification -/

/-- The status query returned a dict the loop accepts (`sucesso` truthy) whose
status is terminal (`3` or `4`). -/
def respOkTerminal (r : Except String PyVal) : Bool :=
  match r with
  | .ok (.pdict entries) =>
    match lookupD entries "sucesso" with
    | some v =>
      truthy v &&
        (pyEqInt (getD entries "status" .pnone) 3 || pyEqInt (getD entries "status" .pnone) 4)
    | none => false
  | _ => false

/-- The status query returned an accepted dict whose status is not terminal. -/
def respOkNonTerminal (r : Except String PyVal) : Bool :=
  match r with
  | .ok (.pdict entries) =>
    match lookupD entries "sucesso" with
    | some v =>
      truthy v &&
        !(pyEqInt (getD entries "status" .pnone) 3 || pyEqInt (getD entries "status" .pnone) 4)
    | none => false
  | _ => false

/-- The status query returned a structured failure (a dict whose `sucesso`
entry is falsy) — the path on which the loop `continue`s without sleeping. -/
def respStructFail (r : Except String PyVal) : Bool :=
  match r with
  | .ok (.pdict entries) =>
    match lookupD entries "sucesso" with
    | some v => !truthy v
    | none => false
  | _ => false

/-- Shape extraction from `respOkTerminal`. -/
theorem respOkTerminal_shape {r : Except String PyVal} (h : respOkTerminal r = true) :
    ∃ entries v, r = .ok (.pdict entries) ∧ lookupD entries "sucesso" = some v ∧
      truthy v = true ∧
      (pyEqInt (getD entries "status" .pnone) 3 || pyEqInt (getD entries "status" .pnone) 4)
        = true := by
  cases r with
  | error e => simp [respOkTerminal] at h
  | ok v =>
    cases v with
    | pdict entries =>
      cases hs : lookupD entries "sucesso" with
      | none => simp [respOkTerminal, hs] at h
      | some sv =>
        simp only [respOkTerminal, hs, Bool.and_eq_true] at h
        exact ⟨entries, sv, rfl, hs, h.1, h.2⟩
    | pnone => simp [respOkTerminal] at h
    | pbool b => simp [respOkTerminal] at h
    | pint n => simp [respOkTerminal] at h
    | pstr s => simp [respOkTerminal] at h
    | plist l => simp [respOkTerminal] at h

/-- Shape extraction from `respOkNonTerminal`. -/
theorem respOkNonTerminal_shape {r : Except String PyVal} (h : respOkNonTerminal r = true) :
    ∃ entries v, r = .ok (.pdict entries) ∧ lookupD entries "sucesso" = some v ∧
      truthy v = true ∧
      (pyEqInt (getD entries "status" .pnone) 3 || pyEqInt (getD entries "status" .pnone) 4)
        = false := by
  cases r with
  | error e => simp [respOkNonTerminal] at h
  | ok v =>
    cases v with
    | pdict entries =>
      cases hs : lookupD entries "sucesso" with
      | none => simp [respOkNonTerminal, hs] at h
      | some sv =>
        simp only [respOkNonTerminal, hs, Bool.and_eq_true, Bool.not_eq_true'] at h
        exact ⟨entries, sv, rfl, hs, h.1, h.2⟩
    | pnone => simp [respOkNonTerminal] at h
    | pbool b => simp [respOkNonTerminal] at h
    | pint n => simp [respOkNonTerminal] at h
    | pstr s => simp [respOkNonTerminal] at h
    | plist l => simp [respOkNonTerminal] at h

/-- The poller consumes exactly the attempts up to the first terminal status:
if attempts `t ≤ i < t + d` observe accepted non-terminal statuses and attempt
`t + d` observes a terminal one within the remaining budget, the loop returns
that attempt's response after `d + 1` further calls. -/
theorem pollGo_terminal (resps : Nat → Except String PyVal)
    (max_tentativas intervalo : Nat) :
    ∀ (d t rem : Nat), d < rem →
    (∀ i, t ≤ i → i < t + d → respOkNonTerminal (resps i) = true) →
    respOkTerminal (resps (t + d)) = true →
    (pollGo resps max_tentativas intervalo t rem).result = resps (t + d) ∧
    (pollGo resps max_tentativas intervalo t rem).calls = d + 1 := by
  intro d
  induction d with
  | zero =>
    intro t rem hlt _ hterm
    obtain ⟨r, rfl⟩ : ∃ r, rem = r + 1 := ⟨rem - 1, by omega⟩
    rw [Nat.add_zero] at hterm
    obtain ⟨entries, sv, he, hs, htr, hbool⟩ := respOkTerminal_shape hterm
    simp [pollGo, he, hs, htr, hbool]
  | succ d ih =>
    intro t rem hlt hpre hterm
    obtain ⟨r, rfl⟩ : ∃ r, rem = r + 1 := ⟨rem - 1, by omega⟩
    have hfirst : respOkNonTerminal (resps t) = true := hpre t le_rfl (by omega)
    obtain ⟨entries, sv, he, hs, htr, hbool⟩ := respOkNonTerminal_shape hfirst
    have hidx : t + (d + 1) = (t + 1) + d := by omega
    rw [hidx] at hterm
    have ih' := ih (t + 1) r (by omega)
      (fun i h1 h2 => hpre i (by omega) (by omega)) hterm
    simp [pollGo, he, hs, htr, hbool, hidx, ih'.1, ih'.2]

/-- The error the loop raises when it consumes its final attempt on the given
non-terminal response: a successful non-terminal poll falls out of the loop
into the timeout raise, every failure shape is re-raised by the final
attempt's `except` handler as a persistent error. -/
def pollLastOutcome (max_tentativas : Nat) (r : Except String PyVal) :
    Except String PyVal :=
  match r with
  | .error e => .error (persistentMsg e)
  | .ok (.pdict entries) =>
    match lookupD entries "sucesso" with
    | none => .error (persistentMsg "KeyError: sucesso")
    | some v =>
      if truthy v then .error (timeoutMsg max_tentativas)
      else .error (persistentMsg (falhaPersistenteMsg entries))
  | .ok other => .error (persistentMsg (pyTypeName other ++ " is not subscriptable"))

/-- If no attempt in the remaining budget observes a terminal status, the loop
consumes the whole budget and ends according to the final attempt's
response. -/
theorem pollGo_exhaust (resps : Nat → Except String PyVal)
    (max_tentativas intervalo : Nat) :
    ∀ (rem t : Nat),
    (∀ i, t ≤ i → i < t + rem → respOkTerminal (resps i) = false) →
    (pollGo resps max_tentativas intervalo t rem).calls = rem ∧
    (pollGo resps max_tentativas intervalo t rem).result =
      (if rem = 0 then .error (timeoutMsg max_tentativas)
       else pollLastOutcome max_tentativas (resps (t + rem - 1))) := by
  intro rem
  induction rem with
  | zero => intro t _; simp [pollGo]
  | succ r ih =>
    intro t hnt
    have hfirst : respOkTerminal (resps t) = false := hnt t le_rfl (by omega)
    have ih' := ih (t + 1) (fun i h1 h2 => hnt i (by omega) (by omega))
    by_cases hr : r = 0
    · subst hr
      cases he : resps t with
      | error e => simp [pollGo, he, pollLastOutcome]
      | ok v =>
        cases v with
        | pdict entries =>
          cases hs : lookupD entries "sucesso" with
          | none => simp [pollGo, he, hs, pollLastOutcome]
          | some sv =>
            cases htr : truthy sv with
            | false => simp [pollGo, he, hs, htr, pollLastOutcome]
            | true =>
              have hbool : (pyEqInt (getD entries "status" .pnone) 3
                  || pyEqInt (getD entries "status" .pnone) 4) = false := by
                by_contra hb
                rw [Bool.not_eq_false] at hb
                have hterm : respOkTerminal (resps t) = true := by
                  simp [respOkTerminal, he, hs, htr, hb]
                simp [hfirst] at hterm
              simp [pollGo, he, hs, htr, hbool, ih'.1, ih'.2, pollLastOutcome]
        | pnone => simp [pollGo, he, pollLastOutcome, pyTypeName]
        | pbool b => simp [pollGo, he, pollLastOutcome, pyTypeName]
        | pint n => simp [pollGo, he, pollLastOutcome, pyTypeName]
        | pstr s => simp [pollGo, he, pollLastOutcome, pyTypeName]
        | plist l => simp [pollGo, he, pollLastOutcome, pyTypeName]
    · have hidx : t + (r + 1) - 1 = (t + 1) + r - 1 := by omega
      cases he : resps t with
      | error e => simp [pollGo, he, hr, ih'.1, ih'.2, hidx]
      | ok v =>
        cases v with
        | pdict entries =>
          cases hs : lookupD entries "sucesso" with
          | none => simp [pollGo, he, hs, hr, ih'.1, ih'.2, hidx]
          | some sv =>
            cases htr : truthy sv with
            | false => simp [pollGo, he, hs, htr, hr, ih'.1, ih'.2, hidx]
            | true =>
              have hbool : (pyEqInt (getD entries "status" .pnone) 3
                  || pyEqInt (getD entries "status" .pnone) 4) = false := by
                by_contra hb
                rw [Bool.not_eq_false] at hb
                have hterm : respOkTerminal (resps t) = true := by
                  simp [respOkTerminal, he, hs, htr, hb]
                simp [hfirst] at hterm
              simp [pollGo, he, hs, htr, hbool, hr, ih'.1, ih'.2, hidx]
        | pnone => simp [pollGo, he, hr, ih'.1, ih'.2, hidx]
        | pbool b => simp [pollGo, he, hr, ih'.1, ih'.2, hidx]
        | pint n => simp [pollGo, he, hr, ih'.1, ih'.2, hidx]
        | pstr s => simp [pollGo, he, hr, ih'.1, ih'.2, hidx]
        | plist l => simp [pollGo, he, hr, ih'.1, ih'.2, hidx]

/-- Offsetting `List.range` by `t`: peel the first attempt number. -/
theorem rangeMapAdd (k t : Nat) :
    (List.range (k + 1)).map (· + t) = t :: (List.range k).map (· + (t + 1)) := by
  rw [List.range_succ_eq_map]
  simp only [List.map_cons, List.map_map, Nat.zero_add]
  refine congrArg (List.cons t) ?_
  apply List.map_congr_left
  intro a _
  simp only [Function.comp_apply]
  omega

/-- Sleep characterization of the polling loop: a sleep of the configured
interval happens after attempt `i` exactly when `i` is followed by another
attempt and `i`'s response was not a structured failure (on which the loop
`continue`s immediately). -/
theorem pollGo_sleeps (resps : Nat → Except String PyVal)
    (max_tentativas intervalo : Nat) :
    ∀ (rem t : Nat),
    (pollGo resps max_tentativas intervalo t rem).sleeps =
      (((List.range ((pollGo resps max_tentativas intervalo t rem).calls - 1)).map
          (· + t)).filter (fun i => !respStructFail (resps i))).map
        (fun i => (i, intervalo)) ∧
    (1 ≤ rem → 1 ≤ (pollGo resps max_tentativas intervalo t rem).calls) := by
  intro rem
  induction rem with
  | zero => intro t; simp [pollGo]
  | succ r ih =>
    intro t
    have ih' := ih (t + 1)
    by_cases hr : r = 0
    · subst hr
      cases he : resps t with
      | error e => simp [pollGo, he]
      | ok v =>
        cases v with
        | pdict entries =>
          cases hs : lookupD entries "sucesso" with
          | none => simp [pollGo, he, hs]
          | some sv =>
            cases htr : truthy sv with
            | false => simp [pollGo, he, hs, htr]
            | true =>
              by_cases hb : (pyEqInt (getD entries "status" .pnone) 3
                  || pyEqInt (getD entries "status" .pnone) 4) = true
              · simp [pollGo, he, hs, htr, hb]
              · rw [Bool.not_eq_true] at hb
                simp [pollGo, he, hs, htr, hb]
        | pnone => simp [pollGo, he]
        | pbool b => simp [pollGo, he]
        | pint n => simp [pollGo, he]
        | pstr s => simp [pollGo, he]
        | plist l => simp [pollGo, he]
    · obtain ⟨k, hk⟩ :
          ∃ k, (pollGo resps max_tentativas intervalo (t + 1) r).calls = k + 1 := by
        have := ih'.2 (by omega)
        exact ⟨(pollGo resps max_tentativas intervalo (t + 1) r).calls - 1, by omega⟩
      have hsl := ih'.1
      rw [hk] at hsl
      simp only [Nat.add_sub_cancel] at hsl
      cases he : resps t with
      | error e =>
        have hsf : respStructFail (resps t) = false := by simp [respStructFail, he]
        rw [he] at hsf
        simp [pollGo, he, hr, hk, hsl, rangeMapAdd, hsf]
      | ok v =>
        cases v with
        | pdict entries =>
          cases hs : lookupD entries "sucesso" with
          | none =>
            have hsf : respStructFail (resps t) = false := by
              simp [respStructFail, he, hs]
            rw [he] at hsf
            simp [pollGo, he, hs, hr, hk, hsl, rangeMapAdd, hsf]
          | some sv =>
            cases htr : truthy sv with
            | false =>
              have hsf : respStructFail (resps t) = true := by
                simp [respStructFail, he, hs, htr]
              rw [he] at hsf
              simp [pollGo, he, hs, htr, hr, hk, hsl, rangeMapAdd, hsf]
            | true =>
              have hsf : respStructFail (resps t) = false := by
                simp [respStructFail, he, hs, htr]
              rw [he] at hsf
              by_cases hb : (pyEqInt (getD entries "status" .pnone) 3
                  || pyEqInt (getD entries "status" .pnone) 4) = true
              · simp [pollGo, he, hs, htr, hb]
              · rw [Bool.not_eq_true] at hb
                simp [pollGo, he, hs, htr, hb, hr, hk, hsl, rangeMapAdd, hsf]
        | pnone =>
          have hsf : respStructFail (resps t) = false := by simp [respStructFail, he]
          rw [he] at hsf
          simp [pollGo, he, hr, hk, hsl, rangeMapAdd, hsf]
        | pbool b =>
          have hsf : respStructFail (resps t) = false := by simp [respStructFail, he]
          rw [he] at hsf
          simp [pollGo, he, hr, hk, hsl, rangeMapAdd, hsf]
        | pint n =>
          have hsf : respStructFail (resps t) = false := by simp [respStructFail, he]
          rw [he] at hsf
          simp [pollGo, he, hr, hk, hsl, rangeMapAdd, hsf]
        | pstr s =>
          have hsf : respStructFail (resps t) = false := by simp [respStructFail, he]
          rw [he] at hsf
          simp [pollGo, he, hr, hk, hsl, rangeMapAdd, hsf]
        | plist l =>
          have hsf : respStructFail (resps t) = false := by simp [respStructFail, he]
          rw [he] at hsf
          simp [pollGo, he, hr, hk, hsl, rangeMapAdd, hsf]

/-- The persistent-failure error message never coincides with the timeout
message. -/
theorem persistentMsg_ne_timeoutMsg (rest : String) (m : Nat) :
    persistentMsg rest ≠ timeoutMsg m := by
  intro h
  have h2 := congrArg String.data h
  simp [persistentMsg, timeoutMsg, String.data_append] at h2

/-! ## Claim C5 -/

/-- C5: for every sequence of statuses returned by successive
`check_lote_status` calls, `_fazer_polling_status` stops at the first observed
terminal status (3 or 4) and returns that status result, having made exactly
as many status calls as the position of the first terminal status; in
particular, for `[2,2,2,4]` with `max_attempts=10` it returns SUCCESS after
exactly 4 calls, and for `[2,3]` it returns ERROR after exactly 2 calls. -/
theorem polling_stops_at_first_terminal :
    (∀ (resps : Nat → Except String PyVal) (max_tentativas intervalo k : Nat),
      1 ≤ k → k ≤ max_tentativas →
      (∀ i, 1 ≤ i → i < k → respOkNonTerminal (resps i) = true) →
      respOkTerminal (resps k) = true →
      (fazerPollingStatus resps max_tentativas intervalo).result = resps k ∧
      (fazerPollingStatus resps max_tentativas intervalo).calls = k)
    ∧ ((fazerPollingStatus (scripted [2, 2, 2, 4]) 10 15).result = .ok (okStatusDict 4)
        ∧ (fazerPollingStatus (scripted [2, 2, 2, 4]) 10 15).calls = 4)
    ∧ ((fazerPollingStatus (scripted [2, 3]) 10 15).result = .ok (okStatusDict 3)
        ∧ (fazerPollingStatus (scripted [2, 3]) 10 15).calls = 2) := by
  refine ⟨?_, ⟨rfl, rfl⟩, ⟨rfl, rfl⟩⟩
  intro resps max_tentativas intervalo k hk hkm hpre hterm
  have hidx : 1 + (k - 1) = k := by omega
  have h := pollGo_terminal resps max_tentativas intervalo (k - 1) 1 max_tentativas
    (by omega) (fun i h1 h2 => hpre i h1 (by omega)) (by rw [hidx]; exact hterm)
  constructor
  · show (pollGo resps max_tentativas intervalo 1 max_tentativas).result = resps k
    rw [h.1, hidx]
  · show (pollGo resps max_tentativas intervalo 1 max_tentativas).calls = k
    rw [h.2]; omega

/-- Witness for C5: the scripted sequence `[2,3]` with `max_attempts=5`
returns the ERROR status result after exactly 2 calls. -/
theorem polling_stops_at_first_terminal_witness :
    (1 : Nat) ≤ 2 ∧ (2 : Nat) ≤ 5 ∧
    (fazerPollingStatus (scripted [2, 3]) 5 15).result = scripted [2, 3] 2 ∧
    (fazerPollingStatus (scripted [2, 3]) 5 15).calls = 2 := by
  have hpre : ∀ i, 1 ≤ i → i < 2 → respOkNonTerminal (scripted [2, 3] i) = true := by
    intro i h1 h2
    have hi : i = 1 := by omega
    subst hi
    rfl
  have hterm : respOkTerminal (scripted [2, 3] 2) = true := rfl
  have h := polling_stops_at_first_terminal.1 (scripted [2, 3]) 5 15 2
    (by omega) (by omega) hpre hterm
  exact ⟨by omega, by omega, h.1, h.2⟩

/-! ## Claim C6 -/

/-- C6: if `max_attempts` polls complete without a terminal status,
`_fazer_polling_status` raises the timeout error after exactly `max_attempts`
calls (the last attempt having observed an accepted non-terminal status);
if the status query fails on the last attempt — either raising or returning a
failed outcome — it raises a persistent-failure error instead, which is never
equal to the timeout error; and a never-terminal `[2,2,2]` script with
`max_attempts=3` reports the timeout after exactly 3 calls. -/
theorem polling_exhaustion_timeout_vs_persistent :
    (∀ (resps : Nat → Except String PyVal) (max_tentativas intervalo : Nat),
      1 ≤ max_tentativas →
      (∀ i, 1 ≤ i → i ≤ max_tentativas → respOkTerminal (resps i) = false) →
      (fazerPollingStatus resps max_tentativas intervalo).calls = max_tentativas
      ∧ (respOkNonTerminal (resps max_tentativas) = true →
          (fazerPollingStatus resps max_tentativas intervalo).result
            = .error (timeoutMsg max_tentativas))
      ∧ (∀ e, resps max_tentativas = .error e →
          (fazerPollingStatus resps max_tentativas intervalo).result
            = .error (persistentMsg e))
      ∧ (∀ entries v, resps max_tentativas = .ok (.pdict entries) →
          lookupD entries "sucesso" = some v → truthy v = false →
          (fazerPollingStatus resps max_tentativas intervalo).result
            = .error (persistentMsg (falhaPersistenteMsg entries)))
      ∧ (∀ rest, persistentMsg rest ≠ timeoutMsg max_tentativas))
    ∧ ((fazerPollingStatus (scripted [2, 2, 2]) 3 15).result = .error (timeoutMsg 3)
        ∧ (fazerPollingStatus (scripted [2, 2, 2]) 3 15).calls = 3) := by
  refine ⟨?_, rfl, rfl⟩
  intro resps max_tentativas intervalo hmax hnt
  have h := pollGo_exhaust resps max_tentativas intervalo max_tentativas 1
    (fun i h1 h2 => hnt i h1 (by omega))
  have hidx : 1 + max_tentativas - 1 = max_tentativas := by omega
  have hm0 : max_tentativas ≠ 0 := by omega
  rw [hidx] at h
  refine ⟨h.1, ?_, ?_, ?_, fun rest => persistentMsg_ne_timeoutMsg rest max_tentativas⟩
  · intro hlast
    obtain ⟨entries, v, he, hs, htr, _⟩ := respOkNonTerminal_shape hlast
    show (pollGo resps max_tentativas intervalo 1 max_tentativas).result = _
    rw [h.2, if_neg hm0, he]
    simp [pollLastOutcome, hs, htr]
  · intro e he
    show (pollGo resps max_tentativas intervalo 1 max_tentativas).result = _
    rw [h.2, if_neg hm0, he]
    rfl
  · intro entries v he hs htr
    show (pollGo resps max_tentativas intervalo 1 max_tentativas).result = _
    rw [h.2, if_neg hm0, he]
    simp [pollLastOutcome, hs, htr]

/-- Witness for C6: the never-terminal script `[2,2,2]` with `max_attempts=3`
raises the timeout error after exactly 3 calls. -/
theorem polling_exhaustion_witness :
    (1 : Nat) ≤ 3 ∧
    (fazerPollingStatus (scripted [2, 2, 2]) 3 15).calls = 3 ∧
    (fazerPollingStatus (scripted [2, 2, 2]) 3 15).result = .error (timeoutMsg 3) := by
  have hnt : ∀ i, 1 ≤ i → i ≤ 3 → respOkTerminal (scripted [2, 2, 2] i) = false := by
    intro i h1 h2
    interval_cases i <;> rfl
  have h := polling_exhaustion_timeout_vs_persistent.1 (scripted [2, 2, 2]) 3 15
    (by omega) hnt
  exact ⟨by omega, h.1, h.2.1 rfl⟩

/-! ## Claim C7 -/

/-- Responses for the C7 counterexample: the first status query returns a
failed outcome (`sucesso` false), the second observes terminal SUCCESS. -/
def c7Resps : Nat → Except String PyVal :=
  fun t =>
    if t = 1 then .ok (.pdict [("sucesso", .pbool false), ("erro", .pstr "Falha simulada")])
    else .ok (okStatusDict 4)

/-- Counterexample to C7 as stated: a run with two consecutive polling
attempts (the first a failed status query) performs no sleep at all between
them — the `continue` after a failed outcome skips the inter-attempt sleep. -/
theorem polling_sleep_counterexample :
    (fazerPollingStatus c7Resps 5 15).calls = 2 ∧
    (fazerPollingStatus c7Resps 5 15).sleeps = [] ∧
    respStructFail (c7Resps 1) = true := by
  exact ⟨rfl, rfl, rfl⟩

/-- C7 (amended): the poller sleeps the configured fixed interval after
exactly those attempts that are followed by another attempt and whose status
query did not return a structured failure (on a failed outcome the loop
`continue`s immediately without sleeping; after an attempt that raised an
exception it does sleep). -/
theorem polling_sleep_characterization :
    ∀ (resps : Nat → Except String PyVal) (max_tentativas intervalo : Nat),
    (fazerPollingStatus resps max_tentativas intervalo).sleeps =
      (((List.range ((fazerPollingStatus resps max_tentativas intervalo).calls - 1)).map
          (· + 1)).filter (fun i => !respStructFail (resps i))).map
        (fun i => (i, intervalo)) :=
  fun resps max_tentativas intervalo =>
    (pollGo_sleeps resps max_tentativas intervalo max_tentativas 1).1

/-! ## Claim C1 -/

/-- Environment for the C1 counterexample: signing raises `boom` while the
clock advances 100 seconds during the run. -/
def svcSignFailure : Services :=
  { start_time := 100, end_time := 200,
    get_invoices := .ok [sampleInvoice],
    numero_lote := 20250930112656,
    sign := .error "boom",
    send := .ok mockSendDict,
    check := fun _ => .ok (mockStatusDict "TESTE_20250930112656"),
    results := .ok (mockResultsDict "TESTE_20250930112656") }

/-- Counterexample to C1 as stated: when the signing step fails, the run does
return `success=false` with the step error appended and no later step
executed, but the end timestamp is NOT recorded (`fim` stays `None`) and the
duration stays `0` — only the full-success epilogue (or the unreachable outer
handler) stamps them. -/
theorem step_failure_keeps_fim_none :
    (process_pending_invoices svcSignFailure).result.sucesso = false
    ∧ (process_pending_invoices svcSignFailure).result.erros = ["Erro ao assinar XML: boom"]
    ∧ (process_pending_invoices svcSignFailure).result.etapas_concluidas
        = ["obter_faturas", "construir_xml"]
    ∧ (process_pending_invoices svcSignFailure).result.fim = none
    ∧ (process_pending_invoices svcSignFailure).result.duracao_segundos = 0
    ∧ svcSignFailure.end_time = 200 :=
  ⟨rfl, rfl, rfl, rfl, rfl, rfl⟩

/-- C1 (amended): for every run in which some step fails, the Workflow Result
has `success=false`, exactly one error message (the failing step error), the
completed-step list is a prefix of the six fixed step names, and no later
step executes; however `fim` stays `None` and `duracao_segundos` stays `0` —
the end timestamp and duration are only recorded on full success. -/
theorem orchestrator_failure_shape :
    ∀ svc : Services,
    (process_pending_invoices svc).result.sucesso = false →
      (process_pending_invoices svc).result.erros.length = 1 ∧
      (process_pending_invoices svc).result.fim = none ∧
      (process_pending_invoices svc).result.duracao_segundos = 0 ∧
      (process_pending_invoices svc).result.etapas_concluidas.isPrefixOf fullSteps = true := by
  intro svc
  cases hInv : svc.get_invoices with
  | error e => simp [process_pending_invoices, hInv, fullSteps, List.isPrefixOf]
  | ok invoices_data =>
    cases invoices_data with
    | nil => simp [process_pending_invoices, hInv, fullSteps, List.isPrefixOf]
    | cons inv rest =>
      cases hSign : svc.sign with
      | error e => simp [process_pending_invoices, hInv, hSign, fullSteps, List.isPrefixOf]
      | ok osign =>
        cases osign with
        | none => simp [process_pending_invoices, hInv, hSign, fullSteps, List.isPrefixOf]
        | some signed =>
          cases hSend : svc.send with
          | error e => simp [process_pending_invoices, hInv, hSign, hSend, fullSteps, List.isPrefixOf]
          | ok envio =>
            cases envio with
            | pnone => simp [process_pending_invoices, hInv, hSign, hSend, fullSteps, List.isPrefixOf]
            | pbool b => simp [process_pending_invoices, hInv, hSign, hSend, fullSteps, List.isPrefixOf]
            | pint n => simp [process_pending_invoices, hInv, hSign, hSend, fullSteps, List.isPrefixOf]
            | pstr s => simp [process_pending_invoices, hInv, hSign, hSend, fullSteps, List.isPrefixOf]
            | plist l => simp [process_pending_invoices, hInv, hSign, hSend, fullSteps, List.isPrefixOf]
            | pdict entries =>
              cases hSuc : lookupD entries "sucesso" with
              | none => simp [process_pending_invoices, hInv, hSign, hSend, hSuc, fullSteps, List.isPrefixOf]
              | some v =>
                cases hTr : truthy v with
                | false => simp [process_pending_invoices, hInv, hSign, hSend, hSuc, hTr, fullSteps, List.isPrefixOf]
                | true =>
                  cases hProt : truthy (getD entries "protocolo" PyVal.pnone) with
                  | false => simp [process_pending_invoices, hInv, hSign, hSend, hSuc, hTr, hProt, fullSteps, List.isPrefixOf]
                  | true =>
                    cases hPoll : (fazerPollingStatus svc.check 20 15).result with
                    | error e => simp [process_pending_invoices, hInv, hSign, hSend, hSuc, hTr, hProt, hPoll, fullSteps, List.isPrefixOf]
                    | ok sd =>
                      cases sd with
                      | pnone => simp [process_pending_invoices, hInv, hSign, hSend, hSuc, hTr, hProt, hPoll, fullSteps, List.isPrefixOf]
                      | pbool b => simp [process_pending_invoices, hInv, hSign, hSend, hSuc, hTr, hProt, hPoll, fullSteps, List.isPrefixOf]
                      | pint n => simp [process_pending_invoices, hInv, hSign, hSend, hSuc, hTr, hProt, hPoll, fullSteps, List.isPrefixOf]
                      | pstr s => simp [process_pending_invoices, hInv, hSign, hSend, hSuc, hTr, hProt, hPoll, fullSteps, List.isPrefixOf]
                      | plist l => simp [process_pending_invoices, hInv, hSign, hSend, hSuc, hTr, hProt, hPoll, fullSteps, List.isPrefixOf]
                      | pdict sentries =>
                        cases hSt : lookupD sentries "status" with
                        | none => simp [process_pending_invoices, hInv, hSign, hSend, hSuc, hTr, hProt, hPoll, hSt, fullSteps, List.isPrefixOf]
                        | some st =>
                          cases hEq3 : pyEqInt st 3 with
                          | true => simp [process_pending_invoices, hInv, hSign, hSend, hSuc, hTr, hProt, hPoll, hSt, hEq3, fullSteps, List.isPrefixOf]
                          | false =>
                            cases hEq4 : pyEqInt st 4 with
                            | false => simp [process_pending_invoices, hInv, hSign, hSend, hSuc, hTr, hProt, hPoll, hSt, hEq3, hEq4, fullSteps, List.isPrefixOf]
                            | true =>
                              cases hRes : svc.results with
                              | error e => simp [process_pending_invoices, hInv, hSign, hSend, hSuc, hTr, hProt, hPoll, hSt, hEq3, hEq4, hRes, fullSteps, List.isPrefixOf]
                              | ok ws =>
                                cases ws with
                                | pnone => simp [process_pending_invoices, hInv, hSign, hSend, hSuc, hTr, hProt, hPoll, hSt, hEq3, hEq4, hRes, fullSteps, List.isPrefixOf]
                                | pbool b => simp [process_pending_invoices, hInv, hSign, hSend, hSuc, hTr, hProt, hPoll, hSt, hEq3, hEq4, hRes, fullSteps, List.isPrefixOf]
                                | pint n => simp [process_pending_invoices, hInv, hSign, hSend, hSuc, hTr, hProt, hPoll, hSt, hEq3, hEq4, hRes, fullSteps, List.isPrefixOf]
                                | pstr s => simp [process_pending_invoices, hInv, hSign, hSend, hSuc, hTr, hProt, hPoll, hSt, hEq3, hEq4, hRes, fullSteps, List.isPrefixOf]
                                | plist l => simp [process_pending_invoices, hInv, hSign, hSend, hSuc, hTr, hProt, hPoll, hSt, hEq3, hEq4, hRes, fullSteps, List.isPrefixOf]
                                | pdict wentries =>
                                  cases hWSuc : lookupD wentries "sucesso" with
                                  | none => simp [process_pending_invoices, hInv, hSign, hSend, hSuc, hTr, hProt, hPoll, hSt, hEq3, hEq4, hRes, hWSuc, fullSteps, List.isPrefixOf]
                                  | some wv =>
                                    cases hWTr : truthy wv with
                                    | false => simp [process_pending_invoices, hInv, hSign, hSend, hSuc, hTr, hProt, hPoll, hSt, hEq3, hEq4, hRes, hWSuc, hWTr, fullSteps, List.isPrefixOf]
                                    | true =>
                                      cases hLen : pyLen (getD wentries "nfse_list" (.plist [])) with
                                      | none => simp [process_pending_invoices, hInv, hSign, hSend, hSuc, hTr, hProt, hPoll, hSt, hEq3, hEq4, hRes, hWSuc, hWTr, hLen, fullSteps, List.isPrefixOf]
                                      | some tot =>
                                        cases hAll : (pyIter (getD wentries "nfse_list" (.plist []))).all isDict with
                                        | false => simp [process_pending_invoices, hInv, hSign, hSend, hSuc, hTr, hProt, hPoll, hSt, hEq3, hEq4, hRes, hWSuc, hWTr, hLen, hAll, fullSteps, List.isPrefixOf]
                                        | true => simp [process_pending_invoices, hInv, hSign, hSend, hSuc, hTr, hProt, hPoll, hSt, hEq3, hEq4, hRes, hWSuc, hWTr, hLen, hAll, fullSteps, List.isPrefixOf]

/-- Witness for the amended C1 theorem at the signing-failure environment. -/
theorem orchestrator_failure_shape_witness :
    (process_pending_invoices svcSignFailure).result.sucesso = false ∧
    ((process_pending_invoices svcSignFailure).result.erros.length = 1 ∧
     (process_pending_invoices svcSignFailure).result.fim = none ∧
     (process_pending_invoices svcSignFailure).result.duracao_segundos = 0 ∧
     (process_pending_invoices svcSignFailure).result.etapas_concluidas.isPrefixOf fullSteps
       = true) :=
  ⟨rfl, orchestrator_failure_shape svcSignFailure rfl⟩

/-! ## Claim C9 -/

/-- C9: an empty invoice collection makes `process_pending_invoices` return
`success=false` with no completed step, exactly the single error message, and
without attempting any network call. -/
theorem empty_invoices_short_circuit :
    ∀ svc : Services, svc.get_invoices = .ok [] →
      (process_pending_invoices svc).result.sucesso = false ∧
      (process_pending_invoices svc).result.etapas_concluidas = [] ∧
      (process_pending_invoices svc).result.erros
        = ["Nenhuma fatura pendente para processar"] ∧
      (process_pending_invoices svc).net_calls = [] := by
  intro svc h
  simp [process_pending_invoices, h]

/-- Environment with an empty pending-invoice collection. -/
def svcNoInvoices : Services :=
  { simulatedServices with get_invoices := .ok [] }

/-- Witness for C9 at the empty-collection environment. -/
theorem empty_invoices_short_circuit_witness :
    svcNoInvoices.get_invoices = .ok [] ∧
    ((process_pending_invoices svcNoInvoices).result.sucesso = false ∧
     (process_pending_invoices svcNoInvoices).result.etapas_concluidas = [] ∧
     (process_pending_invoices svcNoInvoices).result.erros
       = ["Nenhuma fatura pendente para processar"] ∧
     (process_pending_invoices svcNoInvoices).net_calls = []) :=
  ⟨rfl, empty_invoices_short_circuit svcNoInvoices rfl⟩

/-! ## Claim C10 -/

/-- C10: `process_single_invoice` stores its argument in a local list that is
never read and returns exactly `process_pending_invoices()` on the data
source pending invoices, for every argument and environment. -/
theorem process_single_invoice_ignores_argument :
    ∀ (invoice_data : Invoice) (svc : Services),
      process_single_invoice invoice_data svc = process_pending_invoices svc :=
  fun _ _ => rfl

/-! ## Claim C8 -/

/-- Each built `Rps` record contains exactly one `Rps` element. -/
theorem countTag_build_rps (inv : Invoice) : countTag (build_rps inv) "Rps" = 1 := by
  simp [build_rps, build_inf_rps, build_identificacao_rps, build_servico,
        build_prestador, build_tomador, build_endereco_tomador,
        countTag, countTagList]

/-- The `ListaRps` children contribute one `Rps` element per invoice. -/
theorem countTagList_map_build_rps :
    ∀ invoices : List Invoice,
    countTagList (invoices.map build_rps) "Rps" = invoices.length := by
  intro invoices
  induction invoices with
  | nil => rfl
  | cons inv rest ih =>
    simp [countTagList, countTag_build_rps, ih]
    omega

/-- C8: for every invoice list of length `N ≥ 1`, the batch XML's
`QuantidadeRps` text equals `N` and the tree contains exactly `N` `Rps`
record elements. -/
theorem lote_xml_quantidade_matches_rps_count :
    ∀ (invoices : List Invoice) (numero_lote : Nat), 1 ≤ invoices.length →
      (findFirstTag (create_lote_xml invoices numero_lote) "QuantidadeRps").map Xml.text
        = some (some (toString invoices.length))
      ∧ countTag (create_lote_xml invoices numero_lote) "Rps" = invoices.length := by
  intro invoices numero_lote _
  constructor
  · simp [create_lote_xml, build_lote_rps, findFirstTag, findFirstTagList, Xml.text]
  · simp [create_lote_xml, build_lote_rps, countTag, countTagList,
          countTagList_map_build_rps]

/-- Witness for C8 on a two-invoice batch. -/
theorem lote_xml_quantidade_witness :
    1 ≤ [sampleInvoice, sampleInvoice].length ∧
    ((findFirstTag (create_lote_xml [sampleInvoice, sampleInvoice] 7) "QuantidadeRps").map
        Xml.text = some (some (toString [sampleInvoice, sampleInvoice].length))
      ∧ countTag (create_lote_xml [sampleInvoice, sampleInvoice] 7) "Rps"
          = [sampleInvoice, sampleInvoice].length) :=
  ⟨by simp, lote_xml_quantidade_matches_rps_count [sampleInvoice, sampleInvoice] 7 (by simp)⟩

/-! ## Claim C3 -/

/-- The `id` attribute of the first `LoteRps` element, when one exists. -/
def firstLoteRpsId (doc : Xml) : Option (Option String) :=
  (findFirstTag doc "LoteRps").map (fun e => e.attr "id")

/-- Document-order search distributes over list concatenation. -/
theorem findFirstTagList_append (u v : List Xml) (tag : String) :
    findFirstTagList (u ++ v) tag =
      match findFirstTagList u tag with
      | some r => some r
      | none => findFirstTagList v tag := by
  induction u with
  | nil => simp [findFirstTagList]
  | cons x xs ih =>
    simp only [List.cons_append, findFirstTagList]
    cases h : findFirstTag x tag <;> simp [h, ih]

/-- When no element of a list contains the tag, neither does any member. -/
theorem findFirstTag_eq_none_of_mem (tag : String) :
    ∀ c : List Xml, findFirstTagList c tag = none →
      ∀ x ∈ c, findFirstTag x tag = none := by
  intro c
  induction c with
  | nil => intro _ x hx; simp at hx
  | cons y ys ih =>
    intro hnone x hx
    simp only [findFirstTagList] at hnone
    cases h : findFirstTag y tag with
    | some r => simp [h] at hnone
    | none =>
      simp only [h] at hnone
      rcases List.mem_cons.mp hx with rfl | hm
      · exact h
      · exact ih hnone x hm

/-- The first child found by `firstChildTag` is a member of the child list. -/
theorem firstChildTag_mem (tag : String) :
    ∀ (c : List Xml) (e : Xml), firstChildTag c tag = some e → e ∈ c := by
  intro c
  induction c with
  | nil => intro e h; simp [firstChildTag] at h
  | cons x xs ih =>
    intro e h
    simp only [firstChildTag] at h
    by_cases hx : x.tag = tag
    · simp only [hx, if_pos rfl] at h
      exact (Option.some.injEq _ _ ▸ h) ▸ List.mem_cons_self x xs
    · rw [if_neg hx] at h
      exact List.mem_cons_of_mem x (ih e h)

/-- A completed signature block contains a `LoteRps` element only through the
digested subtree it embeds. -/
theorem findFirstTag_signedBlock (uri : String) (inf : Xml) :
    findFirstTag (signedBlock uri inf) "LoteRps" = findFirstTag inf "LoteRps" := by
  cases h : findFirstTag inf "LoteRps" with
  | none =>
    simp [signedBlock, create_signature_template, fillDigestValue,
          fillDigestValueList, findFirstTag, findFirstTagList, dsTag, h]
  | some r =>
    simp [signedBlock, create_signature_template, fillDigestValue,
          fillDigestValueList, findFirstTag, findFirstTagList, dsTag, h]

/-- Unfolding of phase 1 at a `Rps` element. -/
theorem signInternal_rps_elem (a : List (String × String)) (tx : Option String)
    (c : List Xml) :
    sign_internal_rps_elements (.elem "Rps" a tx c)
      = .elem "Rps" a tx (signInfRpsChildren (signInternalList c)) := by
  simp [sign_internal_rps_elements]

/-- Unfolding of phase 1 at a non-`Rps` element. -/
theorem signInternal_other_elem {t : String} (h : t ≠ "Rps")
    (a : List (String × String)) (tx : Option String) (c : List Xml) :
    sign_internal_rps_elements (.elem t a tx c) = .elem t a tx (signInternalList c) := by
  simp [sign_internal_rps_elements, h]

/-- Unfolding of `findFirstTag` when the root tag misses. -/
theorem findFirstTag_elem_ne {t tag : String} (h : t ≠ tag)
    (a : List (String × String)) (tx : Option String) (c : List Xml) :
    findFirstTag (.elem t a tx c) tag = findFirstTagList c tag := by
  simp [findFirstTag, h]

mutual
/-- Phase 1 (inner signing) preserves the presence and `id` attribute of the
first `LoteRps` element of the document. -/
theorem firstLoteRpsId_signInternal : ∀ d : Xml,
    (findFirstTag (sign_internal_rps_elements d) "LoteRps").map (fun e => e.attr "id")
      = (findFirstTag d "LoteRps").map (fun e => e.attr "id")
  | .elem t a tx c => by
    by_cases hL : t = "LoteRps"
    · subst hL
      rw [signInternal_other_elem (by simp) a tx c]
      simp [findFirstTag, Xml.attr, Xml.attrs]
    · by_cases hR : t = "Rps"
      · subst hR
        have hlist := firstLoteRpsIdList_signInternal c
        rw [signInternal_rps_elem a tx c, findFirstTag_elem_ne hL,
            findFirstTag_elem_ne hL]
        cases hFC : firstChildTag (signInternalList c) "InfRps" with
        | none =>
          rw [show signInfRpsChildren (signInternalList c) = signInternalList c from by
            simp [signInfRpsChildren, hFC]]
          exact hlist
        | some inf =>
          cases hid : inf.attr "id" with
          | none =>
            rw [show signInfRpsChildren (signInternalList c) = signInternalList c from by
              simp [signInfRpsChildren, hFC, hid]]
            exact hlist
          | some id =>
            by_cases hemp : id = ""
            · rw [show signInfRpsChildren (signInternalList c) = signInternalList c from by
                simp [signInfRpsChildren, hFC, hid, hemp]]
              exact hlist
            · rw [show signInfRpsChildren (signInternalList c)
                  = signInternalList c ++ [signedBlock ("#" ++ id) inf] from by
                simp [signInfRpsChildren, hFC, hid, hemp]]
              rw [findFirstTagList_append]
              cases hc2 : findFirstTagList (signInternalList c) "LoteRps" with
              | some r =>
                rw [hc2] at hlist
                simpa using hlist
              | none =>
                rw [hc2] at hlist
                have horig : findFirstTagList c "LoteRps" = none :=
                  Option.map_eq_none'.mp hlist.symm
                have hinf : findFirstTag inf "LoteRps" = none :=
                  findFirstTag_eq_none_of_mem "LoteRps" _ hc2 inf
                    (firstChildTag_mem "InfRps" _ inf hFC)
                have hsig : findFirstTag (signedBlock ("#" ++ id) inf) "LoteRps" = none := by
                  rw [findFirstTag_signedBlock]; exact hinf
                simp [findFirstTagList, hsig, horig]
      · have hlist := firstLoteRpsIdList_signInternal c
        rw [signInternal_other_elem hR a tx c, findFirstTag_elem_ne hL,
            findFirstTag_elem_ne hL]
        exact hlist
/-- List version of `firstLoteRpsId_signInternal`. -/
theorem firstLoteRpsIdList_signInternal : ∀ c : List Xml,
    (findFirstTagList (signInternalList c) "LoteRps").map (fun e => e.attr "id")
      = (findFirstTagList c "LoteRps").map (fun e => e.attr "id")
  | [] => by simp [signInternalList, findFirstTagList]
  | x :: xs => by
    have hpx := firstLoteRpsId_signInternal x
    have hpxs := firstLoteRpsIdList_signInternal xs
    simp only [signInternalList, findFirstTagList]
    cases hx : findFirstTag (sign_internal_rps_elements x) "LoteRps" with
    | some r =>
      rw [hx] at hpx
      cases horig : findFirstTag x "LoteRps" with
      | none => rw [horig] at hpx; simp at hpx
      | some r' => rw [horig] at hpx; simpa using hpx
    | none =>
      rw [hx] at hpx
      cases horig : findFirstTag x "LoteRps" with
      | some r' => rw [horig] at hpx; simp at hpx
      | none => simpa using hpxs
end

/-- An inner `InfRps` without an `id` attribute, nested in a batch document
whose `LoteRps` is properly identified. -/
def c3InfRpsNoId : Xml := .elem "InfRps" [] none []

/-- The `LoteRps` of the C3 counterexample document. -/
def c3LoteRps : Xml :=
  .elem "LoteRps" [("id", "lote_1")] none [
    .elem "NumeroLote" [] (some "1") [],
    .elem "ListaRps" [] none [.elem "Rps" [] none [c3InfRpsNoId]]]

/-- The C3 counterexample document: one record whose `InfRps` lacks `id`. -/
def c3Doc : Xml :=
  .elem "EnviarLoteRpsEnvio" [("xmlns", "http://www.abrasf.org.br/nfse.xsd")] none
    [c3LoteRps]

/-- A document without any `LoteRps` element. -/
def c3NoLoteDoc : Xml := .elem "EnviarLoteRpsEnvio" [] none []

/-- Counterexample to C3 as stated: on a document whose inner `InfRps` lacks
an `id`, production signing does NOT abort — it returns a signed document in
which the record is silently left unsigned (no signature block anywhere
inside `LoteRps`), only the outer signature is appended. -/
theorem sign_skips_idless_inf_rps :
    sign_lote_rps_xml false c3Doc
      = .ok (.elem "EnviarLoteRpsEnvio" [("xmlns", "http://www.abrasf.org.br/nfse.xsd")]
          none [c3LoteRps, signedBlock "#lote_1" c3LoteRps])
    ∧ countTag c3LoteRps (dsTag "Signature") = 0 := by
  constructor
  · simp [sign_lote_rps_xml, sign_internal_rps_elements, signInternalList,
          signInfRpsChildren, firstChildTag, Xml.tag, Xml.attr, Xml.attrs, attrLookup,
          sign_external_lote_element, findFirstTag, findFirstTagList,
          c3Doc, c3LoteRps, c3InfRpsNoId]
  · simp [countTag, countTagList, c3LoteRps, c3InfRpsNoId, dsTag]

/-- C3 (amended): production signing aborts with a fatal error — returning no
output — exactly when the outer `LoteRps` element is missing or lacks a
non-empty `id` attribute; when the `LoteRps` carries a non-empty `id` the
operation always returns a signed document, so an inner `InfRps` lacking an
`id` never aborts it (the record is silently skipped and left unsigned). -/
theorem sign_aborts_only_on_lote_rps_id :
    ∀ doc : Xml,
      (firstLoteRpsId doc = none →
        sign_lote_rps_xml false doc = .error "Elemento LoteRps não encontrado no XML")
      ∧ (firstLoteRpsId doc = some none →
        sign_lote_rps_xml false doc = .error "Atributo id não encontrado no elemento LoteRps")
      ∧ (firstLoteRpsId doc = some (some "") →
        sign_lote_rps_xml false doc = .error "Atributo id não encontrado no elemento LoteRps")
      ∧ (∀ i, firstLoteRpsId doc = some (some i) → i ≠ "" →
        ∃ t, sign_lote_rps_xml false doc = .ok t) := by
  intro doc
  have hpres := firstLoteRpsId_signInternal doc
  refine ⟨?_, ?_, ?_, ?_⟩
  · intro h
    unfold firstLoteRpsId at h
    have h0 : findFirstTag doc "LoteRps" = none := Option.map_eq_none'.mp h
    have h1 : (findFirstTag (sign_internal_rps_elements doc) "LoteRps").map
        (fun e => e.attr "id") = none := by rw [hpres, h0]; rfl
    have h2 : findFirstTag (sign_internal_rps_elements doc) "LoteRps" = none :=
      Option.map_eq_none'.mp h1
    simp [sign_lote_rps_xml, sign_external_lote_element, h2]
  · intro h
    unfold firstLoteRpsId at h
    have h' : (findFirstTag (sign_internal_rps_elements doc) "LoteRps").map
        (fun e => e.attr "id") = some none := by rw [hpres]; exact h
    obtain ⟨e2, he2, hattr⟩ := Option.map_eq_some'.mp h'
    simp [sign_lote_rps_xml, sign_external_lote_element, he2, hattr]
  · intro h
    unfold firstLoteRpsId at h
    have h' : (findFirstTag (sign_internal_rps_elements doc) "LoteRps").map
        (fun e => e.attr "id") = some (some "") := by rw [hpres]; exact h
    obtain ⟨e2, he2, hattr⟩ := Option.map_eq_some'.mp h'
    simp [sign_lote_rps_xml, sign_external_lote_element, he2, hattr]
  · intro i h hne
    unfold firstLoteRpsId at h
    have h' : (findFirstTag (sign_internal_rps_elements doc) "LoteRps").map
        (fun e => e.attr "id") = some (some i) := by rw [hpres]; exact h
    obtain ⟨e2, he2, hattr⟩ := Option.map_eq_some'.mp h'
    cases hshape : sign_internal_rps_elements doc with
    | elem t a tx c =>
      rw [hshape] at he2
      exact ⟨Xml.elem t a tx (c ++ [signedBlock ("#" ++ i) e2]),
        by simp [sign_lote_rps_xml, sign_external_lote_element, hshape,
          he2, hattr, hne]⟩

/-- Witness for the amended C3 theorem: the no-`LoteRps` document aborts with
the fatal error, and the counterexample document (whose `LoteRps` id is
`lote_1`) completes with output. -/
theorem sign_aborts_only_witness :
    firstLoteRpsId c3NoLoteDoc = none ∧
    sign_lote_rps_xml false c3NoLoteDoc
      = .error "Elemento LoteRps não encontrado no XML" ∧
    firstLoteRpsId c3Doc = some (some "lote_1") ∧
    ∃ t, sign_lote_rps_xml false c3Doc = .ok t := by
  refine ⟨rfl, (sign_aborts_only_on_lote_rps_id c3NoLoteDoc).1 rfl, ?_, ?_⟩
  · simp [firstLoteRpsId, c3Doc, c3LoteRps, findFirstTag, findFirstTagList,
          Xml.attr, Xml.attrs, attrLookup]
  · exact (sign_aborts_only_on_lote_rps_id c3Doc).2.2.2 "lote_1"
      (by simp [firstLoteRpsId, c3Doc, c3LoteRps, findFirstTag, findFirstTagList,
        Xml.attr, Xml.attrs, attrLookup]) (by simp)

/-! ## Claim C4 -/

/-- The tag of a built `InfRps`. -/
theorem build_inf_rps_tag (inv : Invoice) : (build_inf_rps inv).tag = "InfRps" := rfl

/-- The `id` attribute of a built `InfRps`. -/
theorem build_inf_rps_attr (inv : Invoice) :
    (build_inf_rps inv).attr "id" = some inv.id_rps := rfl

/-- Expected signed record: the signature block referencing the record's
`InfRps` sits inside the same `Rps`, as the `InfRps`'s following sibling. -/
def signedRps (invoice : Invoice) : Xml :=
  .elem "Rps" [] none [build_inf_rps invoice,
    signedBlock ("#" ++ invoice.id_rps) (build_inf_rps invoice)]

/-- Expected `LoteRps` after phase 1: all records inner-signed, the rest of
the batch header untouched. -/
def signed_lote_rps (invoices : List Invoice) (numero_lote : Nat) : Xml :=
  .elem "LoteRps" [("id", "lote_" ++ toString numero_lote)] none [
    .elem "NumeroLote" [] (some (toString numero_lote)) [],
    .elem "CpfCnpj" [] none [.elem "Cnpj" [] (some PRESTADOR_CNPJ) []],
    .elem "InscricaoMunicipal" [] (some PRESTADOR_IM) [],
    .elem "QuantidadeRps" [] (some (toString invoices.length)) [],
    .elem "ListaRps" [] none (invoices.map signedRps)]

/-- Expected fully signed envelope: the outer signature block is the
`LoteRps`'s following sibling at the document root, and its digest is taken
over the phase-1 result (inner signatures included). -/
def signed_envelope (invoices : List Invoice) (numero_lote : Nat) : Xml :=
  .elem "EnviarLoteRpsEnvio" [("xmlns", "http://www.abrasf.org.br/nfse.xsd")] none
    [signed_lote_rps invoices numero_lote,
     signedBlock ("#lote_" ++ toString numero_lote)
       (signed_lote_rps invoices numero_lote)]

/-- Phase 1 leaves a built `InfRps` subtree unchanged (it contains no `Rps`
element). -/
theorem signInternal_build_inf_rps (inv : Invoice) :
    sign_internal_rps_elements (build_inf_rps inv) = build_inf_rps inv := by
  simp [build_inf_rps, build_identificacao_rps, build_servico, build_prestador,
        build_tomador, build_endereco_tomador, sign_internal_rps_elements,
        signInternalList]

/-- Phase 1 turns a built record into its signed form when the record id is
non-empty. -/
theorem signInternal_build_rps (inv : Invoice) (h : inv.id_rps ≠ "") :
    sign_internal_rps_elements (build_rps inv) = signedRps inv := by
  rw [build_rps, signInternal_rps_elem]
  rw [show signInternalList [build_inf_rps inv] = [build_inf_rps inv] from by
    simp [signInternalList, signInternal_build_inf_rps]]
  rw [show signInfRpsChildren [build_inf_rps inv]
      = [build_inf_rps inv, signedBlock ("#" ++ inv.id_rps) (build_inf_rps inv)] from by
    simp [signInfRpsChildren, firstChildTag, build_inf_rps_tag, build_inf_rps_attr, h]]
  rfl

/-- Phase 1 over the record list. -/
theorem signInternalList_map_build_rps :
    ∀ invoices : List Invoice, (∀ inv ∈ invoices, inv.id_rps ≠ "") →
    signInternalList (invoices.map build_rps) = invoices.map signedRps := by
  intro invoices
  induction invoices with
  | nil => intro _; rfl
  | cons inv rest ih =>
    intro h
    have h1 : inv.id_rps ≠ "" := h inv (List.mem_cons_self inv rest)
    have h2 := ih (fun x hx => h x (List.mem_cons_of_mem inv hx))
    simp only [List.map_cons, signInternalList, h2,
               signInternal_build_rps inv h1]

/-- Phase 1 over the whole built envelope. -/
theorem signInternal_create_lote_xml (invoices : List Invoice) (numero_lote : Nat)
    (h : ∀ inv ∈ invoices, inv.id_rps ≠ "") :
    sign_internal_rps_elements (create_lote_xml invoices numero_lote)
      = .elem "EnviarLoteRpsEnvio" [("xmlns", "http://www.abrasf.org.br/nfse.xsd")] none
          [signed_lote_rps invoices numero_lote] := by
  simp [create_lote_xml, build_lote_rps, sign_internal_rps_elements, signInternalList,
        signInternalList_map_build_rps invoices h, signed_lote_rps]

/-- A batch id is never the empty string. -/
theorem lote_id_ne_empty (n : Nat) : "lote_" ++ toString n ≠ "" := by
  intro h
  have h2 := congrArg String.data h
  simp [String.data_append] at h2

/-- Prepending the fragment marker to a `lote_` id. -/
theorem hash_lote_append (s : String) : "#" ++ ("lote_" ++ s) = "#lote_" ++ s := by
  rw [← String.append_assoc]
  rfl

/-- The top tag of every completed signature block. -/
theorem signedBlock_tag (uri : String) (d : Xml) :
    (signedBlock uri d).tag = dsTag "Signature" := by
  simp [signedBlock, create_signature_template, fillDigestValue, dsTag, Xml.tag]

/-- C4: for every non-empty batch of properly identified records, production
signing completes and yields exactly the expected envelope: every record's
inner signature block is a sibling of its `InfRps` inside the same `Rps`;
exactly one outer signature block exists, as the `LoteRps`'s sibling at the
document root; and the outer signature's digest is taken over the `LoteRps`
tree with all inner signatures already present, so it covers them. -/
theorem double_signature_order_and_placement :
    ∀ (invoices : List Invoice) (numero_lote : Nat),
      1 ≤ invoices.length → (∀ inv ∈ invoices, inv.id_rps ≠ "") →
      sign_lote_rps_xml false (create_lote_xml invoices numero_lote)
          = .ok (signed_envelope invoices numero_lote)
      ∧ ((signed_envelope invoices numero_lote).children.filter
            (fun x => x.tag = dsTag "Signature")).length = 1
      ∧ (signed_envelope invoices numero_lote).children
          = [signed_lote_rps invoices numero_lote,
             signedBlock ("#lote_" ++ toString numero_lote)
               (signed_lote_rps invoices numero_lote)]
      ∧ (findFirstTag (signed_envelope invoices numero_lote) "ListaRps").map Xml.children
          = some (invoices.map signedRps)
      ∧ (findFirstTag (signedBlock ("#lote_" ++ toString numero_lote)
            (signed_lote_rps invoices numero_lote)) (dsTag "DigestValue")).map Xml.children
          = some [signed_lote_rps invoices numero_lote] := by
  intro invoices numero_lote _ hids
  refine ⟨?_, ?_, rfl, ?_, ?_⟩
  · rw [show sign_lote_rps_xml false (create_lote_xml invoices numero_lote)
        = sign_external_lote_element
            (sign_internal_rps_elements (create_lote_xml invoices numero_lote)) from rfl]
    rw [signInternal_create_lote_xml invoices numero_lote hids]
    have hfind : findFirstTag
        (Xml.elem "EnviarLoteRpsEnvio" [("xmlns", "http://www.abrasf.org.br/nfse.xsd")]
          none [signed_lote_rps invoices numero_lote]) "LoteRps"
        = some (signed_lote_rps invoices numero_lote) := by
      simp [findFirstTag, findFirstTagList, signed_lote_rps]
    have hattr : (signed_lote_rps invoices numero_lote).attr "id"
        = some ("lote_" ++ toString numero_lote) := rfl
    simp [sign_external_lote_element, hfind, hattr, lote_id_ne_empty numero_lote,
          signed_envelope, hash_lote_append]
  · have h1 : (signed_lote_rps invoices numero_lote).tag = "LoteRps" := rfl
    have h2 := signedBlock_tag ("#lote_" ++ toString numero_lote)
      (signed_lote_rps invoices numero_lote)
    simp [signed_envelope, Xml.children, List.filter_cons, h1, h2, dsTag]
  · simp [signed_envelope, signed_lote_rps, findFirstTag, findFirstTagList,
          Xml.children]
  · simp [signedBlock, create_signature_template, fillDigestValue,
          fillDigestValueList, findFirstTag, findFirstTagList, dsTag, Xml.children]

/-- Witness for C4 on the one-record sample batch. -/
theorem double_signature_witness :
    1 ≤ [sampleInvoice].length ∧
    sign_lote_rps_xml false (create_lote_xml [sampleInvoice] 12345)
      = .ok (signed_envelope [sampleInvoice] 12345) ∧
    (findFirstTag (signed_envelope [sampleInvoice] 12345) "ListaRps").map Xml.children
      = some ([sampleInvoice].map signedRps) := by
  have h := double_signature_order_and_placement [sampleInvoice] 12345 (by simp)
    (by intro inv hinv
        simp only [List.mem_singleton] at hinv
        subst hinv
        simp [sampleInvoice])
  exact ⟨by simp, h.1, h.2.2.2.1⟩

/-! ## Claim C2 -/

/-- C2: in the simulated end-to-end run the workflow reports full success
with all six steps completed in order — but `nfse_geradas` comes out empty,
although the mock `get_lote_results` response carries exactly one generated
NFSe: the orchestrator reads key `nfse_list`, which `get_lote_results` never
provides (it returns the list under `nfse_geradas`). -/
theorem simulated_run_loses_generated_nfse :
    (process_pending_invoices simulatedServices).result.sucesso = true
    ∧ (process_pending_invoices simulatedServices).result.etapas_concluidas = fullSteps
    ∧ (process_pending_invoices simulatedServices).result.protocolo
        = .pstr "TESTE_20250930112656"
    ∧ lookupD (mockResultsEntries "TESTE_20250930112656") "nfse_geradas"
        = some (.plist [mockNfseDict])
    ∧ lookupD (mockResultsEntries "TESTE_20250930112656") "nfse_list" = none
    ∧ (process_pending_invoices simulatedServices).result.nfse_geradas = .plist [] :=
  ⟨rfl, rfl, rfl, rfl, rfl, rfl⟩

end Nfse

